import Mathlib

/-!
# Verification of the clinical sentiment ensemble core

Shallow embedding of `src/scripts/clinical_sentiment_analysis.py`
(`ClinicalSentimentAnalyzer`): score normalization, lazy model loading with
per-model fallback, ensemble inference, and averaging.

Modelling conventions:
* Python floats become `ℚ` (the properties at stake are exact sign/zero facts).
* A classifier pipeline becomes a `Capability`: a function from the input text
  to `Except String ClassifierResult` (`Except.error` models the pipeline
  raising during inference; a pipeline object that is `None` is modelled by
  `Option.none` in the analyzer state).
* Pipeline construction (`AutoTokenizer.from_pretrained` + `pipeline(...)`)
  becomes a `ModelHub`: for each of the four constructions appearing in
  `_load_models`, a function from the device kwargs to
  `Except String Capability` (`Except.error` models construction raising).
* The ambient value of the `CLINICAL_SENTIMENT_DEVICE` environment variable is
  passed explicitly: to `ClinicalSentimentAnalyzer.init` (the source reads it
  there via `os.getenv`) and, as `env_now`, to the methods that could in
  principle re-read it but do not (`analyze_sentiment` and
  `get_average_sentiment` never mention the environment in the source, so
  `env_now` is unused in their bodies).
-/

/-- Output of one classifier pipeline call: `result[0]['label']` and
`result[0]['score']` in `_normalize_score`. -/
structure ClassifierResult where
  label : String
  score : ℚ
deriving Repr, DecidableEq

/-- A loaded classifier pipeline: text in, (label, score) out, or an
inference-time exception. -/
abbrev Capability := String → Except String ClassifierResult

/-- The kwargs built by the `_device_kwargs` helper inside `_load_models`:
at most one of `device_map` / `device` is populated. -/
structure DeviceKwargs where
  device_map : Option String
  device : Option Int
deriving Repr, DecidableEq

/-- The external model-construction boundary: one constructor per
`pipeline(...)` call site in `_load_models` (model 1 primary, model 1
fallback, model 2, model 3), each receiving the device kwargs. -/
structure ModelHub where
  primary1 : DeviceKwargs → Except String Capability
  fallback1 : DeviceKwargs → Except String Capability
  primary2 : DeviceKwargs → Except String Capability
  primary3 : DeviceKwargs → Except String Capability

/-- Python's `str.upper()` (ASCII-relevant part), on the character list so
that it evaluates by kernel reduction. -/
def pyUpper (s : String) : String := String.mk (s.data.map Char.toUpper)

/-- Python's `str.lower()` (ASCII-relevant part). -/
def pyLower (s : String) : String := String.mk (s.data.map Char.toLower)

/-- Python's `str.strip()`: drop surrounding whitespace. -/
def pyStrip (s : String) : String :=
  String.mk (((s.data.dropWhile fun c => c.isWhitespace).reverse.dropWhile
    fun c => c.isWhitespace).reverse)

/-- `pat` occurs as a contiguous sublist of the second argument. -/
def listContainsSub (pat : List Char) : List Char → Bool
  | [] => pat.isEmpty
  | c :: rest => pat.isPrefixOf (c :: rest) || listContainsSub pat rest

/-- Python's `pat in label` substring test. -/
def strContains (label pat : String) : Bool :=
  listContainsSub pat.data label.data

/-- The mutable attributes of a `ClinicalSentimentAnalyzer` instance set in
`__init__` and `_load_models`. -/
structure AnalyzerState where
  use_mps : Bool
  device : Option Int
  device_map : Option String
  models_loaded : Bool
  model1 : Option Capability
  model2 : Option Capability
  model3 : Option Capability

namespace ClinicalSentimentAnalyzer

/-- `__init__`: device selection from the (lower-cased) value of the
`CLINICAL_SENTIMENT_DEVICE` environment variable and the hardware
availability flags; pipelines start as `None`, `models_loaded` as `False`. -/
def init (env : String) (mps_available cuda_available : Bool) : AnalyzerState :=
  let force_device := pyLower env
  if force_device = "cpu" then
    { use_mps := false, device := some (-1), device_map := none,
      models_loaded := false, model1 := none, model2 := none, model3 := none }
  else if cuda_available then
    { use_mps := mps_available, device := some 0, device_map := none,
      models_loaded := false, model1 := none, model2 := none, model3 := none }
  else if mps_available then
    { use_mps := mps_available, device := none, device_map := some "auto",
      models_loaded := false, model1 := none, model2 := none, model3 := none }
  else
    { use_mps := mps_available, device := some (-1), device_map := none,
      models_loaded := false, model1 := none, model2 := none, model3 := none }

/-- The `_device_kwargs` helper: prefer `device_map`, then `device`, else
empty kwargs. -/
def device_kwargs (s : AnalyzerState) : DeviceKwargs :=
  if s.device_map.isSome then { device_map := s.device_map, device := none }
  else if s.device.isSome then { device_map := none, device := s.device }
  else { device_map := none, device := none }

/-- `_load_models`. Faithful to the source's exception structure:
* early return when `models_loaded` is already set;
* model 1: primary construction in `try`; on failure the fallback is
  constructed OUTSIDE any `try`, so a fallback-construction exception
  propagates to the caller (`Except.error`);
* models 2 and 3: construction in `try`; on failure only a warning is
  printed and the attribute keeps its previous value (`None` from
  `__init__`);
* finally `models_loaded := true`. -/
def load_models (hub : ModelHub) (s : AnalyzerState) : Except String AnalyzerState :=
  if s.models_loaded then Except.ok s
  else
    match (match hub.primary1 (device_kwargs s) with
           | Except.ok cap => Except.ok cap
           | Except.error _ => hub.fallback1 (device_kwargs s)) with
    | Except.error e => Except.error e
    | Except.ok cap1 =>
      Except.ok { s with
        model1 := some cap1,
        model2 := match hub.primary2 (device_kwargs s) with
                  | Except.ok cap => some cap
                  | Except.error _ => s.model2,
        model3 := match hub.primary3 (device_kwargs s) with
                  | Except.ok cap => some cap
                  | Except.error _ => s.model3,
        models_loaded := true }

/-- Number of pipeline constructions attempted by `load_models` on this state
(the construction-count counter: 0 when `models_loaded` short-circuits;
otherwise primary 1, plus the fallback when primary 1 fails — aborting before
models 2 and 3 when the fallback also fails — plus models 2 and 3). -/
def construction_attempts (hub : ModelHub) (s : AnalyzerState) : Nat :=
  if s.models_loaded then 0
  else
    match hub.primary1 (device_kwargs s) with
    | Except.ok _ => 3
    | Except.error _ =>
      match hub.fallback1 (device_kwargs s) with
      | Except.ok _ => 4
      | Except.error _ => 2

end ClinicalSentimentAnalyzer

namespace ClinicalSentimentAnalyzer

/-- `_normalize_score`: uppercase the label, then the six-way cascade mapping
(label, score) to a signed score. -/
def normalize_score (result : ClassifierResult) : ℚ :=
  let label := pyUpper result.label
  let score := result.score
  if strContains label "NEGATIVE" || label == "LABEL_0" then -score
  else if strContains label "POSITIVE" || label == "LABEL_1" then score
  else if strContains label "NEUTRAL" || label == "LABEL_2" then 0
  else if strContains label "NEG" then -score
  else if strContains label "POS" then score
  else 0

/-- One per-model block of `analyze_sentiment`: `self.modelN(text)` followed
by `_normalize_score`, inside `try`. Calling a `None` attribute raises
(`TypeError`), and a raising capability is caught; both yield `0.0`. -/
def infer_weight (model : Option Capability) (text : String) : ℚ :=
  match model with
  | none => 0
  | some cap =>
    match cap text with
    | Except.error _ => 0
    | Except.ok r => normalize_score r

/-- `analyze_sentiment`: lazy load on first use (an exception escaping
`_load_models` propagates — the load call is not inside a `try`), then the
short-text guard, then the three guarded per-model inferences. `env_now` is
the ambient environment value at call time; the source never reads it here. -/
def analyze_sentiment (env_now : String) (hub : ModelHub) (s : AnalyzerState)
    (text : String) : Except String (AnalyzerState × (ℚ × ℚ × ℚ)) :=
  match (if s.models_loaded then Except.ok s else load_models hub s) with
  | Except.error e => Except.error e
  | Except.ok s2 =>
    if text = "" ∨ (pyStrip text).length < 3 then
      Except.ok (s2, (0, 0, 0))
    else
      Except.ok (s2, (infer_weight s2.model1 text,
                      infer_weight s2.model2 text,
                      infer_weight s2.model3 text))

/-- `get_average_sentiment`: `np.mean([w1, w2, w3])` over the triple from
`analyze_sentiment` on the same instance. -/
def get_average_sentiment (env_now : String) (hub : ModelHub) (s : AnalyzerState)
    (text : String) : Except String (AnalyzerState × ℚ) :=
  match analyze_sentiment env_now hub s text with
  | Except.error e => Except.error e
  | Except.ok (s2, (w1, w2, w3)) => Except.ok (s2, (w1 + w2 + w3) / 3)

end ClinicalSentimentAnalyzer

/-- Module-level `get_clinical_sentiment_weights`: fresh analyzer instance,
one analysis. -/
def get_clinical_sentiment_weights (env : String) (mps_available cuda_available : Bool)
    (hub : ModelHub) (text : String) : Except String (AnalyzerState × (ℚ × ℚ × ℚ)) :=
  ClinicalSentimentAnalyzer.analyze_sentiment env hub
    (ClinicalSentimentAnalyzer.init env mps_available cuda_available) text

/-- The spec's slot lifecycle label for slot 1, read off the branch structure
of `_load_models`: primary construction succeeds (Ready), primary fails and
fallback succeeds (Degraded), both fail (Unavailable — in the source this
branch raises instead of completing). -/
inductive SlotState where
  | unconfigured
  | ready
  | degraded
  | unavailable
deriving Repr, DecidableEq

/-- Slot 1's lifecycle state as determined by the constructor outcomes for
the device kwargs of the given state. -/
def slot1_state (hub : ModelHub) (s : AnalyzerState) : SlotState :=
  match hub.primary1 (ClinicalSentimentAnalyzer.device_kwargs s) with
  | Except.ok _ => SlotState.ready
  | Except.error _ =>
    match hub.fallback1 (ClinicalSentimentAnalyzer.device_kwargs s) with
    | Except.ok _ => SlotState.degraded
    | Except.error _ => SlotState.unavailable

/-! ## Spec-side formulation of the Score Normalizer

A second definition of the normalizer, written from the spec's words
("an explicit ordered list of (predicate, polarity) rules evaluated in fixed
priority order against the case-normalized label, with a final default"),
to be compared with `normalize_score` above. -/

/-- One spec rule: a predicate on the case-normalized label together with the
outcome applied to the confidence. -/
abbrev SpecRule := (String → Bool) × (ℚ → ℚ)

/-- The spec's six ordered rules (rule 6, the unrecognized-label default,
is the fall-through of `apply_rules`). -/
def spec_rules : List SpecRule :=
  [(fun l => strContains l "NEGATIVE" || l == "LABEL_0", fun c => -c),
   (fun l => strContains l "POSITIVE" || l == "LABEL_1", fun c => c),
   (fun l => strContains l "NEUTRAL" || l == "LABEL_2", fun _ => 0),
   (fun l => strContains l "NEG", fun c => -c),
   (fun l => strContains l "POS", fun c => c)]

/-- Evaluate an ordered rule list: first matching rule wins, default 0. -/
def apply_rules : List SpecRule → String → ℚ → ℚ
  | [], _, _ => 0
  | r :: rs, l, c => if r.1 l then r.2 c else apply_rules rs l c

/-- The Score Normalizer as the spec words it: the ordered rules evaluated on
the case-normalized (uppercased) label. -/
def spec_normalize (label : String) (confidence : ℚ) : ℚ :=
  apply_rules spec_rules (pyUpper label) confidence

/-! ## Concrete fixtures used by witnesses and counterexamples -/

/-- A capability answering `("NEGATIVE", 0.9)` on every text. -/
def neg_cap : Capability := fun _ => Except.ok ⟨"NEGATIVE", 9/10⟩

/-- A capability answering `("NEG", 0.8)` on every text. -/
def neg8_cap : Capability := fun _ => Except.ok ⟨"NEG", 4/5⟩

/-- A capability answering `("POSITIVE", 0.8)` on every text. -/
def pos_cap : Capability := fun _ => Except.ok ⟨"POSITIVE", 4/5⟩

/-- A capability that raises on every inference call. -/
def raise_cap : Capability := fun _ => Except.error "inference crash"

/-- A hub on which all four constructions succeed. -/
def ok_hub : ModelHub :=
  { primary1 := fun _ => Except.ok neg_cap
    fallback1 := fun _ => Except.ok neg_cap
    primary2 := fun _ => Except.ok neg8_cap
    primary3 := fun _ => Except.ok pos_cap }

/-- A hub where model 1's primary construction fails and its fallback
succeeds. -/
def fb_hub : ModelHub :=
  { primary1 := fun _ => Except.error "primary down"
    fallback1 := fun _ => Except.ok neg_cap
    primary2 := fun _ => Except.ok pos_cap
    primary3 := fun _ => Except.ok pos_cap }

/-- A hub where both model-1 constructions fail. -/
def broken_hub : ModelHub :=
  { primary1 := fun _ => Except.error "primary down"
    fallback1 := fun _ => Except.error "fallback down"
    primary2 := fun _ => Except.ok pos_cap
    primary3 := fun _ => Except.ok pos_cap }

/-- A fresh analyzer state: no env override, no accelerator. -/
def fresh_state : AnalyzerState := ClinicalSentimentAnalyzer.init "" false false

/-- The spec's end-to-end mock: loaded, slot 1 answers `("NEGATIVE", 0.9)`,
slot 2 answers `("NEG", 0.8)`, slot 3 raises during inference. -/
def mock_state : AnalyzerState :=
  { use_mps := false, device := some (-1), device_map := none,
    models_loaded := true, model1 := some neg_cap, model2 := some neg8_cap,
    model3 := some raise_cap }

/-- A loaded state whose slot 2 is Unavailable (its pipeline stayed `None`). -/
def unavailable2_state : AnalyzerState :=
  { use_mps := false, device := some (-1), device_map := none,
    models_loaded := true, model1 := some neg_cap, model2 := none,
    model3 := some pos_cap }

/-! ## Helper lemmas -/

open ClinicalSentimentAnalyzer

/-- The guard `if not self.models_loaded: self._load_models()` in
`analyze_sentiment` is equivalent to calling `_load_models` unconditionally,
since `_load_models` re-checks the flag. -/
theorem load_if_eq (hub : ModelHub) (s : AnalyzerState) :
    (if s.models_loaded then Except.ok s else load_models hub s)
      = load_models hub s := by
  by_cases h : s.models_loaded = true
  · rw [if_pos h]
    unfold load_models
    rw [if_pos h]
  · rw [if_neg h]

/-- Whenever `_load_models` returns normally, the `models_loaded` flag of the
resulting state is set. -/
theorem load_models_ok_flag (hub : ModelHub) (s s2 : AnalyzerState)
    (h : load_models hub s = Except.ok s2) : s2.models_loaded = true := by
  unfold load_models at h
  by_cases hm : s.models_loaded = true
  · rw [if_pos hm] at h
    cases h
    exact hm
  · rw [if_neg hm] at h
    cases hp : hub.primary1 (device_kwargs s) with
    | error e1 =>
      rw [hp] at h
      cases hf : hub.fallback1 (device_kwargs s) with
      | error e2 => rw [hf] at h; cases h
      | ok cap => rw [hf] at h; cases h; rfl
    | ok cap => rw [hp] at h; cases h; rfl

/-- Text of trimmed length at least 3 does not satisfy the short-text
guard. -/
theorem long_text_not_short (text : String) (hv : 3 ≤ (pyStrip text).length) :
    ¬(text = "" ∨ (pyStrip text).length < 3) := by
  rintro (rfl | hlt)
  · exact absurd hv (by decide)
  · omega

/-- On an already-loaded analyzer, `analyze_sentiment` with valid text is the
three independent per-slot inferences and leaves the state unchanged. -/
theorem analyze_loaded (env : String) (hub : ModelHub) (s : AnalyzerState)
    (text : String) (hl : s.models_loaded = true)
    (hv : 3 ≤ (pyStrip text).length) :
    analyze_sentiment env hub s text
      = Except.ok (s, (infer_weight s.model1 text, infer_weight s.model2 text,
          infer_weight s.model3 text)) := by
  unfold analyze_sentiment
  rw [hl]
  simp only [if_true]
  rw [if_neg (long_text_not_short text hv)]

/-- On an already-loaded analyzer, `analyze_sentiment` with short text is the
neutral triple and leaves the state unchanged. -/
theorem analyze_loaded_short (env : String) (hub : ModelHub) (s : AnalyzerState)
    (text : String) (hl : s.models_loaded = true)
    (hshort : text = "" ∨ (pyStrip text).length < 3) :
    analyze_sentiment env hub s text = Except.ok (s, (0, 0, 0)) := by
  unfold analyze_sentiment
  rw [hl]
  simp only [if_true]
  rw [if_pos hshort]

/-! ## Claims -/

/-- Claim C1: `_normalize_score` returns exactly the value of the spec's six
ordered rules on the uppercased label; in particular `NEGATIVE ↦ -c`,
`POSITIVE ↦ c`, `NEUTRAL ↦ 0` for confidence `c ∈ [0, 1]`, and matching is
case-insensitive (lower- or mixed-case labels normalize identically). -/
theorem normalize_score_matches_spec (label : String) (c : ℚ)
    (h : 0 ≤ c ∧ c ≤ 1) :
    normalize_score ⟨label, c⟩ = spec_normalize label c
    ∧ normalize_score ⟨"NEGATIVE", c⟩ = -c
    ∧ normalize_score ⟨"POSITIVE", c⟩ = c
    ∧ normalize_score ⟨"NEUTRAL", c⟩ = 0
    ∧ normalize_score ⟨"negative", c⟩ = -c
    ∧ normalize_score ⟨"Positive", c⟩ = c
    ∧ normalize_score ⟨"label_0", c⟩ = -c
    ∧ normalize_score ⟨"UNKNOWN_TAG", c⟩ = 0 := by
  refine ⟨?_, rfl, rfl, rfl, rfl, rfl, rfl, rfl⟩
  simp only [normalize_score, spec_normalize, spec_rules, apply_rules]

/-- Witness for C1 at `c = 1/2`. -/
theorem normalize_score_matches_spec_witness :
    normalize_score ⟨"NEGATIVE", 1/2⟩ = -(1/2 : ℚ)
    ∧ normalize_score ⟨"negative", 1/2⟩ = -(1/2 : ℚ) :=
  ⟨(normalize_score_matches_spec "x" (1/2) (by norm_num)).2.1,
   (normalize_score_matches_spec "x" (1/2) (by norm_num)).2.2.2.2.1⟩

/-- Claim C2 (code bug evidence): when model 1's primary construction raises
and its fallback construction also raises, the exception escapes to the
caller of `analyze_sentiment`, `get_average_sentiment` and
`get_clinical_sentiment_weights` — contradicting the never-throw claim and
the source's own docstrings ("Prints warnings but continues if individual
models fail"; "Individual model failure: Returns 0.0 for that model"). -/
theorem analyze_surfaces_fallback_construction_error :
    analyze_sentiment "" broken_hub fresh_state "I feel awful today"
      = Except.error "fallback down"
    ∧ get_average_sentiment "" broken_hub fresh_state "I feel awful today"
      = Except.error "fallback down"
    ∧ get_clinical_sentiment_weights "" false false broken_hub "I feel awful today"
      = Except.error "fallback down" :=
  ⟨rfl, rfl, rfl⟩

/-- Counterexample to claim C3 as stated: on a fresh analyzer, a short text
does NOT leave the slots untouched — `analyze_sentiment` loads the models
first (the `models_loaded` flag flips to true and three constructions are
attempted) and only then returns the neutral triple. -/
theorem short_text_still_triggers_loading :
    (analyze_sentiment "" ok_hub fresh_state "").toOption.map
        (fun p => p.1.models_loaded) = some true
    ∧ (analyze_sentiment "" ok_hub fresh_state "").toOption.map
        (fun p => p.2) = some (0, 0, 0)
    ∧ fresh_state.models_loaded = false
    ∧ construction_attempts ok_hub fresh_state = 3 :=
  ⟨rfl, rfl, rfl, rfl⟩

/-- Claim C3 as amended: short text (empty or trimmed length < 3) yields the
neutral triple with no slot inference — the result is the loaded state paired
with `(0,0,0)` whatever the capabilities are — but lazy loading is still
triggered first; text of trimmed length at least 3 proceeds to the three
per-slot inferences. -/
theorem short_text_neutral_long_text_infers (env : String) (hub : ModelHub)
    (s : AnalyzerState) (text : String) :
    ((text = "" ∨ (pyStrip text).length < 3) →
      analyze_sentiment env hub s text
        = Except.map (fun s2 => (s2, ((0 : ℚ), (0 : ℚ), (0 : ℚ))))
            (load_models hub s))
    ∧ (3 ≤ (pyStrip text).length →
      analyze_sentiment env hub s text
        = Except.map (fun s2 => (s2, (infer_weight s2.model1 text,
            infer_weight s2.model2 text, infer_weight s2.model3 text)))
            (load_models hub s)) := by
  constructor
  · intro hshort
    unfold analyze_sentiment
    rw [load_if_eq]
    cases hl : load_models hub s with
    | error e => rfl
    | ok s2 => simp [Except.map, hshort]
  · intro hlong
    unfold analyze_sentiment
    rw [load_if_eq]
    cases hl : load_models hub s with
    | error e => rfl
    | ok s2 => simp [Except.map, long_text_not_short text hlong]

/-- Witness for the amended C3: a fresh analyzer on the short text `"hi"`
and on the valid text `"ok!"`. -/
theorem short_text_neutral_long_text_infers_witness :
    analyze_sentiment "" ok_hub fresh_state "hi"
      = Except.map (fun s2 => (s2, ((0 : ℚ), (0 : ℚ), (0 : ℚ))))
          (load_models ok_hub fresh_state)
    ∧ analyze_sentiment "" ok_hub fresh_state "ok!"
      = Except.map (fun s2 => (s2, (infer_weight s2.model1 "ok!",
          infer_weight s2.model2 "ok!", infer_weight s2.model3 "ok!")))
          (load_models ok_hub fresh_state) :=
  ⟨(short_text_neutral_long_text_infers "" ok_hub fresh_state "hi").1
      (Or.inr (by decide)),
   (short_text_neutral_long_text_infers "" ok_hub fresh_state "ok!").2
      (by decide)⟩

/-- Claim C4: `get_average_sentiment` equals the arithmetic mean
`(w1 + w2 + w3) / 3` of the triple returned by `analyze_sentiment` on the
same analyzer for the same text (including agreement on the resulting state,
and propagating the same error when analysis errors). -/
theorem average_is_mean_of_analyze (env : String) (hub : ModelHub)
    (s : AnalyzerState) (text : String) :
    get_average_sentiment env hub s text
      = Except.map (fun p => (p.1, (p.2.1 + p.2.2.1 + p.2.2.2) / 3))
          (analyze_sentiment env hub s text) := by
  unfold get_average_sentiment
  cases h : analyze_sentiment env hub s text with
  | error e => rfl
  | ok p => obtain ⟨s2, w1, w2, w3⟩ := p; rfl

/-- Claim C5: on a loaded analyzer, a slot in Unavailable state (its pipeline
attribute stayed `None` because construction failed) contributes exactly
`0.0` to `analyze_sentiment` for every valid text, while the other two
components are the normal per-slot inferences. -/
theorem unavailable_slot_contributes_zero (env : String) (hub : ModelHub)
    (s : AnalyzerState) (text : String) (hl : s.models_loaded = true)
    (h2 : s.model2 = none) (hv : 3 ≤ (pyStrip text).length) :
    analyze_sentiment env hub s text
      = Except.ok (s, (infer_weight s.model1 text, 0,
          infer_weight s.model3 text)) := by
  rw [analyze_loaded env hub s text hl hv, h2]
  rfl

/-- Witness for C5: slot 2 Unavailable, slots 1 and 3 loaded. -/
theorem unavailable_slot_contributes_zero_witness :
    analyze_sentiment "" ok_hub unavailable2_state "I feel awful today"
      = Except.ok (unavailable2_state,
          (infer_weight unavailable2_state.model1 "I feel awful today", 0,
           infer_weight unavailable2_state.model3 "I feel awful today")) :=
  unavailable_slot_contributes_zero "" ok_hub unavailable2_state
    "I feel awful today" rfl rfl (by decide)

/-- Claim C6: loading is one-shot — the flag is false at construction, set
whenever `_load_models` or `analyze_sentiment` returns normally, and calling
`_load_models` on an already-loaded analyzer is a no-op: the state is
returned unchanged and zero constructions are attempted. -/
theorem loading_is_one_shot (hub : ModelHub) (s : AnalyzerState) (env : String)
    (mps_available cuda_available : Bool) :
    (init env mps_available cuda_available).models_loaded = false
    ∧ (∀ s2, load_models hub s = Except.ok s2 → s2.models_loaded = true)
    ∧ (∀ text s2 w, analyze_sentiment env hub s text = Except.ok (s2, w) →
        s2.models_loaded = true)
    ∧ (s.models_loaded = true →
        load_models hub s = Except.ok s ∧ construction_attempts hub s = 0) := by
  refine ⟨?_, ?_, ?_, ?_⟩
  · simp only [init]
    split
    · rfl
    · split
      · rfl
      · split <;> rfl
  · exact fun s2 h => load_models_ok_flag hub s s2 h
  · intro text s2 w h
    unfold analyze_sentiment at h
    rw [load_if_eq] at h
    cases hl : load_models hub s with
    | error e => rw [hl] at h; cases h
    | ok s3 =>
      rw [hl] at h
      have hflag := load_models_ok_flag hub s s3 hl
      by_cases hshort : text = "" ∨ (pyStrip text).length < 3
      · simp only [if_pos hshort] at h
        cases h
        exact hflag
      · simp only [if_neg hshort] at h
        cases h
        exact hflag
  · intro hm
    constructor
    · unfold load_models
      rw [if_pos hm]
    · unfold construction_attempts
      rw [if_pos hm]

/-- Witness for C6: on the already-loaded mock state, `_load_models` returns
the state unchanged and attempts no construction. -/
theorem loading_is_one_shot_witness :
    load_models ok_hub mock_state = Except.ok mock_state
    ∧ construction_attempts ok_hub mock_state = 0 :=
  (loading_is_one_shot ok_hub mock_state "" false false).2.2.2 rfl

/-- Claim C7: an inference-time failure is transient and isolated — if a
loaded slot-3 capability raises on one call, that call's third component is
`0.0`, the state (slot capabilities included) is returned unchanged, the
other two components are the normal independent inferences, and on any later
call where the same capability answers, its normalized answer is returned
again. The spec's end-to-end mock — slot 1 `("NEGATIVE",0.9)`, slot 2
`("NEG",0.8)`, slot 3 raising — yields `(-0.9, -0.8, 0.0)`. -/
theorem inference_failure_is_transient (env : String) (hub : ModelHub)
    (s : AnalyzerState) (text : String) (cap3 : Capability) (e : String)
    (hl : s.models_loaded = true) (h3 : s.model3 = some cap3)
    (he : cap3 text = Except.error e) (hv : 3 ≤ (pyStrip text).length) :
    analyze_sentiment env hub s text
      = Except.ok (s, (infer_weight s.model1 text, infer_weight s.model2 text, 0))
    ∧ (∀ text2 r, cap3 text2 = Except.ok r → 3 ≤ (pyStrip text2).length →
        analyze_sentiment env hub s text2
          = Except.ok (s, (infer_weight s.model1 text2,
              infer_weight s.model2 text2, normalize_score r)))
    ∧ analyze_sentiment "" ok_hub mock_state "I feel awful today"
        = Except.ok (mock_state, (-(9/10 : ℚ), -(4/5 : ℚ), 0)) := by
  refine ⟨?_, ?_, rfl⟩
  · rw [analyze_loaded env hub s text hl hv, h3]
    simp [infer_weight, he]
  · intro text2 r hr hv2
    rw [analyze_loaded env hub s text2 hl hv2, h3]
    simp [infer_weight, hr]

/-- Witness for C7: the mock state with the raising slot-3 capability. -/
theorem inference_failure_is_transient_witness :
    analyze_sentiment "" ok_hub mock_state "I feel awful today"
      = Except.ok (mock_state,
          (infer_weight mock_state.model1 "I feel awful today",
           infer_weight mock_state.model2 "I feel awful today", 0))
    ∧ analyze_sentiment "" ok_hub mock_state "I feel awful today"
        = Except.ok (mock_state, (-(9/10 : ℚ), -(4/5 : ℚ), 0)) :=
  ⟨(inference_failure_is_transient "" ok_hub mock_state "I feel awful today"
      raise_cap "inference crash" rfl rfl rfl (by decide)).1,
   (inference_failure_is_transient "" ok_hub mock_state "I feel awful today"
      raise_cap "inference crash" rfl rfl rfl (by decide)).2.2⟩

/-- Claim C8: when slot 1's primary construction fails but its fallback
succeeds, the slot is Degraded, loading installs the fallback capability, and
subsequent analysis returns the fallback's normalized score as component 1 —
concretely, with a fallback answering `("NEGATIVE", 0.9)` on polarized input,
component 1 is `-0.9 ≠ 0`, so fallback activation is not observable as a
forced zero. -/
theorem degraded_fallback_scores (hub : ModelHub) (s : AnalyzerState)
    (cap : Capability) (e : String) (hm : s.models_loaded = false)
    (hp : hub.primary1 (device_kwargs s) = Except.error e)
    (hf : hub.fallback1 (device_kwargs s) = Except.ok cap) :
    slot1_state hub s = SlotState.degraded
    ∧ (∀ s2, load_models hub s = Except.ok s2 →
        s2.model1 = some cap ∧
        ∀ env text, 3 ≤ (pyStrip text).length →
          analyze_sentiment env hub s2 text
            = Except.ok (s2, (infer_weight (some cap) text,
                infer_weight s2.model2 text, infer_weight s2.model3 text)))
    ∧ (analyze_sentiment "" fb_hub fresh_state "I feel hopeless").map
        (fun p => p.2.1) = Except.ok (-(9/10 : ℚ))
    ∧ -(9/10 : ℚ) ≠ 0
    ∧ slot1_state fb_hub fresh_state = SlotState.degraded := by
  refine ⟨?_, ?_, rfl, by norm_num, rfl⟩
  · unfold slot1_state
    rw [hp, hf]
  · intro s2 hload
    have hm' : ¬(s.models_loaded = true) := by rw [hm]; exact Bool.false_ne_true
    unfold load_models at hload
    rw [if_neg hm', hp, hf] at hload
    cases hload
    refine ⟨rfl, ?_⟩
    intro env text hv
    rw [analyze_loaded env hub _ text rfl hv]

/-- Witness for C8: `fb_hub` on a fresh analyzer. -/
theorem degraded_fallback_scores_witness :
    slot1_state fb_hub fresh_state = SlotState.degraded
    ∧ (analyze_sentiment "" fb_hub fresh_state "I feel hopeless").map
        (fun p => p.2.1) = Except.ok (-(9/10 : ℚ))
    ∧ -(9/10 : ℚ) ≠ 0 :=
  ⟨(degraded_fallback_scores fb_hub fresh_state neg_cap "primary down"
      rfl rfl rfl).1,
   (degraded_fallback_scores fb_hub fresh_state neg_cap "primary down"
      rfl rfl rfl).2.2.1,
   (degraded_fallback_scores fb_hub fresh_state neg_cap "primary down"
      rfl rfl rfl).2.2.2.1⟩

/-- Claim C9: the force-CPU environment toggle is read only at construction
and compared case-insensitively — any value lower-casing to `"cpu"` yields
CPU-only device selection (`device = -1`, no device map, MPS disabled, and
CPU device kwargs for every construction), `"CPU"` and `"cpu"` construct
identical states, and the ambient environment value at the time of a later
`analyze_sentiment` / `get_average_sentiment` call is irrelevant to the
result. -/
theorem env_toggle_read_once_case_insensitive (env1 env2 env3 : String)
    (hub : ModelHub) (s : AnalyzerState) (text : String)
    (mps_available cuda_available : Bool) (hcpu : pyLower env1 = "cpu") :
    (init env1 mps_available cuda_available).device = some (-1)
    ∧ (init env1 mps_available cuda_available).device_map = none
    ∧ (init env1 mps_available cuda_available).use_mps = false
    ∧ init "CPU" mps_available cuda_available
        = init "cpu" mps_available cuda_available
    ∧ device_kwargs (init env1 mps_available cuda_available)
        = { device_map := none, device := some (-1) }
    ∧ analyze_sentiment env2 hub s text = analyze_sentiment env3 hub s text
    ∧ get_average_sentiment env2 hub s text
        = get_average_sentiment env3 hub s text := by
  have hinit : init env1 mps_available cuda_available
      = { use_mps := false, device := some (-1), device_map := none,
          models_loaded := false, model1 := none, model2 := none,
          model3 := none } := by
    simp only [init]
    rw [if_pos hcpu]
  exact ⟨by rw [hinit], by rw [hinit], by rw [hinit], rfl,
    by rw [hinit]; rfl, rfl, rfl⟩

/-- Witness for C9 at the mixed-case value `"CPU"`. -/
theorem env_toggle_read_once_case_insensitive_witness :
    (init "CPU" false false).device = some (-1)
    ∧ (init "CPU" false false).use_mps = false
    ∧ init "CPU" false false = init "cpu" false false :=
  ⟨(env_toggle_read_once_case_insensitive "CPU" "a" "b" ok_hub fresh_state
      "ok!" false false (by decide)).1,
   (env_toggle_read_once_case_insensitive "CPU" "a" "b" ok_hub fresh_state
      "ok!" false false (by decide)).2.2.1,
   (env_toggle_read_once_case_insensitive "CPU" "a" "b" ok_hub fresh_state
      "ok!" false false (by decide)).2.2.2.1⟩

/-- Claim C10: once loaded, `analyze_sentiment` is frame-preserving — a
successful call on a loaded state returns exactly that state (flag, device
fields and all three slot capabilities unchanged), a repeated call on the
returned state returns the identical triple, and on a loaded state the call
always succeeds. -/
theorem analyze_preserves_loaded_state (env : String) (hub : ModelHub)
    (s : AnalyzerState) (text : String) (hl : s.models_loaded = true) :
    (∀ s2 w, analyze_sentiment env hub s text = Except.ok (s2, w) →
       s2 = s ∧ analyze_sentiment env hub s2 text = Except.ok (s2, w))
    ∧ ∃ w, analyze_sentiment env hub s text = Except.ok (s, w) := by
  by_cases hshort : text = "" ∨ (pyStrip text).length < 3
  · have ha := analyze_loaded_short env hub s text hl hshort
    constructor
    · intro s2 w h
      rw [ha] at h
      cases h
      exact ⟨rfl, ha⟩
    · exact ⟨(0, 0, 0), ha⟩
  · have hv : 3 ≤ (pyStrip text).length := by
      push_neg at hshort
      omega
    have ha := analyze_loaded env hub s text hl hv
    constructor
    · intro s2 w h
      rw [ha] at h
      cases h
      exact ⟨rfl, ha⟩
    · exact ⟨_, ha⟩

/-- Witness for C10: a second call on the already-loaded mock state returns
the state unchanged together with the same concrete triple. -/
theorem analyze_preserves_loaded_state_witness :
    mock_state = mock_state
    ∧ analyze_sentiment "" ok_hub mock_state "ok!"
        = Except.ok (mock_state, (-(9/10 : ℚ), -(4/5 : ℚ), 0)) :=
  (analyze_preserves_loaded_state "" ok_hub mock_state "ok!" rfl).1 mock_state
    (-(9/10 : ℚ), -(4/5 : ℚ), 0) rfl
